import Mathlib

/-!
Shallow embedding of the node-registration and dynamic-dispatch layer of
the comfyui controlnet aux package (file src/__init__.py), together with
proofs about its behaviour.

The embedding covers:
* the plugin loader `load_nodes` (lines 20-59),
* the options view `preprocessor_options` (lines 68-74) and the exclusion
  list `AIO_NOT_SUPPORTED` (lines 64-66),
* the parameter-inference adapter of `AIO_Preprocessor.execute`
  (lines 92-125) and of `ControlNetPreprocessorSelector.get_preprocessor`
  (lines 232-264),
* the fan-out/fan-in graph composer of
  `ExecuteAllControlNetPreprocessors.execute` (lines 156-183).
-/

namespace CNAux

/-- Runtime values flowing through the adapter.  Images, controlnet models
and float literals are opaque tags: the adapter never computes with them,
it only moves them around, so an opaque representation is faithful. -/
inductive PVal where
  | image (tag : Nat)
  | int (n : Int)
  | float (tag : Int)
  | str (s : String)
  | model (name : String)
deriving DecidableEq, Repr

/-- The first component of a ComfyUI input descriptor tuple: either a type
tag string such as "INT" or "IMAGE", or an enumerated choice list
(a Python list of option strings). -/
inductive TypeHead where
  | tag (s : String)
  | choices (opts : List String)
deriving DecidableEq, Repr

/-- A ComfyUI input descriptor: a Python tuple of length 1 (`short`), or of
length 2 (`long`) whose second component is an options dict that may or may
not carry a "default" entry (`default?`). -/
inductive InputType where
  | short (head : TypeHead)
  | long (head : TypeHead) (default? : Option PVal)
deriving DecidableEq, Repr

/-- `input_type[0]` of a descriptor. -/
def InputType.head : InputType → TypeHead
  | .short h => h
  | .long h _ => h

/-- The Python exceptions that the embedded code can raise.
`typeError` models a TypeError (for example indexing a dict with an
unhashable list); `keyError` models a KeyError on a dict lookup;
`missingParameter` models the TypeError Python raises when a keyword call
omits a required argument of the callee; `capabilityMissing` models the
RuntimeError raised at line 160 when `comfy_execution.graph_utils` cannot
be imported. -/
inductive PyErr where
  | typeError
  | keyError
  | missingParameter
  | capabilityMissing
deriving DecidableEq, Repr

/-- First-match association-list lookup, the model of a Python dict read. -/
def alistLookup {α : Type} (k : String) (d : List (String × α)) : Option α :=
  (d.find? (fun e => e.1 == k)).map (fun e => e.2)

/-- Membership in the table `default_values = { "INT": 0, "FLOAT": 0.0 }`
(lines 116 and 258). -/
def defaultValuesMem (s : String) : Bool := s == "INT" || s == "FLOAT"

/-- The value the table `default_values` maps a member key to. -/
def defaultValuesVal (s : String) : PVal :=
  if s == "INT" then .int 0 else .float 0

/-- One iteration of the parameter loop of `AIO_Preprocessor.execute`
(lines 103-123), deciding the binding of a single declared parameter.
Returns `some v` when the loop stores `params[name] = v`, `none` when the
parameter is left unbound, and an error when the loop raises.  Note the
source line 120 `params[name] = default_values[input_type[0]]` inside the
list branch: whenever some option of the choice list is a key of the
table, the code indexes the table with the whole list, which is unhashable
in Python and raises a TypeError. -/
def aio_fill_param (image resolution : PVal) (name : String) (ty : InputType) :
    Except PyErr (Option PVal) :=
  if name == "image" then .ok (some image)
  else if name == "resolution" then .ok (some resolution)
  else
    match ty with
    | .long _ (some d) => .ok (some d)
    | _ =>
      match ty.head with
      | .choices opts =>
          if opts.any defaultValuesMem then .error .typeError else .ok none
      | .tag s =>
          if defaultValuesMem s then .ok (some (defaultValuesVal s)) else .ok none

/-- One iteration of the parameter loop of
`ControlNetPreprocessorSelector.get_preprocessor` (lines 245-259).  It has
no dedicated list branch: line 259 evaluates `input_type[0] in
default_values`, which raises a TypeError whenever `input_type[0]` is a
(unhashable) list. -/
def sel_fill_param (image resolution : PVal) (name : String) (ty : InputType) :
    Except PyErr (Option PVal) :=
  if name == "image" then .ok (some image)
  else if name == "resolution" then .ok (some resolution)
  else
    match ty with
    | .long _ (some d) => .ok (some d)
    | _ =>
      match ty.head with
      | .choices _ => .error .typeError
      | .tag s =>
          if defaultValuesMem s then .ok (some (defaultValuesVal s)) else .ok none

/-- The parameter loop of `AIO_Preprocessor.execute` (lines 102-123) over a
merged schema, building the `params` dict in schema order. -/
def aio_build_arguments (image resolution : PVal) :
    List (String × InputType) → Except PyErr (List (String × PVal))
  | [] => .ok []
  | (n, t) :: rest =>
    match aio_fill_param image resolution n t with
    | .error e => .error e
    | .ok v? =>
      match aio_build_arguments image resolution rest with
      | .error e => .error e
      | .ok ps =>
        .ok (match v? with
             | some v => (n, v) :: ps
             | none => ps)

/-- The parameter loop of `ControlNetPreprocessorSelector.get_preprocessor`
(lines 244-259). -/
def sel_build_arguments (image resolution : PVal) :
    List (String × InputType) → Except PyErr (List (String × PVal))
  | [] => .ok []
  | (n, t) :: rest =>
    match sel_fill_param image resolution n t with
    | .error e => .error e
    | .ok v? =>
      match sel_build_arguments image resolution rest with
      | .error e => .error e
      | .ok ps =>
        .ok (match v? with
             | some v => (n, v) :: ps
             | none => ps)

/-- What a unit entry point returns: either a plain Python tuple or a dict
holding a "result" tuple and possibly an "expand" graph (the structured
shape returned for example by `ExecuteAllControlNetPreprocessors.execute`,
lines 180-183). -/
inductive UnitRet where
  | tuple (vs : List PVal)
  | record (result : List PVal) (hasExpand : Bool)
deriving DecidableEq, Repr

/-- A registered executable unit: its `INPUT_TYPES()["required"]` and
`INPUT_TYPES()["optional"]` schemas and its entry-point function. -/
structure UnitDesc where
  required : List (String × InputType)
  optional : List (String × InputType)
  run : List (String × PVal) → UnitRet

/-- The dict merge `{**input_types["required"], **input_types["optional"]}`
of lines 98-101 and 240-243: required keys first in order (values
overridden by a same-named optional entry), then the optional-only keys. -/
def schemaMerge (req opt : List (String × InputType)) : List (String × InputType) :=
  req.map (fun e =>
    match alistLookup e.1 opt with
    | some t => (e.1, t)
    | none => e)
  ++ opt.filter (fun e => (alistLookup e.1 req).isNone)

/-- The keyword call `getattr(aux_class(), aux_class.FUNCTION)(**params)`
(lines 125 and 261).  Python raises a TypeError when the call omits a
required argument of the callee; following the ComfyUI convention that the
entry-point signature requires exactly the parameters listed under
`INPUT_TYPES()["required"]`, the call fails iff some required schema name
is absent from `params`. -/
def invoke (u : UnitDesc) (ps : List (String × PVal)) : Except PyErr UnitRet :=
  if u.required.all (fun e => (alistLookup e.1 ps).isSome) then .ok (u.run ps)
  else .error .missingParameter

/-- `AIO_Preprocessor.execute` (lines 92-125).  The registry argument
models the global `AUX_NODE_MAPPINGS`.  Line 125 returns the value of the
unit call verbatim, with no shape detection. -/
def AIO_Preprocessor_execute (registry : List (String × UnitDesc))
    (preprocessor : String) (image resolution : PVal) : Except PyErr UnitRet :=
  if preprocessor == "none" then .ok (.tuple [image])
  else
    match alistLookup preprocessor registry with
    | none => .error .keyError
    | some u =>
      match aio_build_arguments image resolution (schemaMerge u.required u.optional) with
      | .error e => .error e
      | .ok ps => invoke u ps

/-- The shape normalisation of lines 263-264: a dict result contributes its
"result" tuple, a plain tuple contributes itself, and the controlnet model
is prepended either way. -/
def sel_normalize (cnmodel : PVal) : UnitRet → UnitRet
  | .record res _ => .tuple (cnmodel :: res)
  | .tuple vs => .tuple (cnmodel :: vs)

/-- `ControlNetPreprocessorSelector.get_preprocessor` (lines 232-264).
`cnprepro` stands for the value `prompt[my_unique_id]["inputs"]
["select_styles"]` read at line 235, and the loaded controlnet model of
line 233 is the opaque value `PVal.model cn`. -/
def ControlNetPreprocessorSelector_get_preprocessor
    (registry : List (String × UnitDesc)) (cn : String)
    (image resolution : PVal) (cnprepro : String) : Except PyErr UnitRet :=
  let cnmodel := PVal.model cn
  if cnprepro == "none" then .ok (.tuple [cnmodel, image])
  else
    match alistLookup cnprepro registry with
    | none => .error .keyError
    | some u =>
      match sel_build_arguments image resolution (schemaMerge u.required u.optional) with
      | .error e => .error e
      | .ok ps =>
        match invoke u ps with
        | .error e => .error e
        | .ok r => .ok (sel_normalize cnmodel r)

/-- The exclusion list `AIO_NOT_SUPPORTED` (lines 64-66). -/
def AIO_NOT_SUPPORTED : List String :=
  ["InpaintPreprocessor", "MeshGraphormer+ImpactDetector-DepthMapPreprocessor",
   "DiffusionEdge_Preprocessor", "SavePoseKpsAsJsonFile",
   "FacialPartColoringFromPoseKps", "UpperBodyTrackingFromPoseKps",
   "RenderPeopleKps", "RenderAnimalKps", "Unimatch_OptFlowPreprocessor",
   "MaskOptFlow"]

/-- Python `str.startswith for the one-character prefix ".", via the
first character of the string. -/
def startsWithDot (s : String) : Bool :=
  match s.data with
  | [] => false
  | c :: _ => c == '.'

/-- Python `list.remove`: delete the first occurrence of `a`. -/
def listRemove (l : List String) (a : String) : List String :=
  match l with
  | [] => []
  | b :: t => if b == a then t else b :: listRemove t a

/-- `preprocessor_options` (lines 68-74), parameterised by the key list of
the global `AUX_NODE_MAPPINGS` and by the exclusion list: insert the
sentinel "none" at position 0, then for each excluded name remove its first
occurrence when present (`auxs.remove`). -/
def preprocessor_options (auxNames : List String) (notSupported : List String) :
    List String :=
  notSupported.foldl
    (fun acc name => if acc.contains name then listRemove acc name else acc)
    ("none" :: auxNames)

/-! ## Plugin loader (`load_nodes`, lines 20-59) -/

/-- The outcome of attempting `importlib.import_module` on one candidate
file of the `node_wrappers` directory followed by reading its exported
tables: a successful load exposing `NODE_CLASS_MAPPINGS` and optionally
`NODE_DISPLAY_NAME_MAPPINGS`, an AttributeError (work-in-progress unit,
line 39), or any other exception whose traceback text is `msg`
(line 41). Registered unit classes are opaque strings. -/
inductive Outcome where
  | loaded (classMap : List (String × String))
      (dispMap : Option (List (String × String)))
  | attrError
  | loadError (msg : String)
deriving DecidableEq, Repr

/-- One candidate source file: its stem name and its load outcome. -/
structure Candidate where
  name : String
  outcome : Outcome
deriving DecidableEq, Repr

/-- The accumulated state of `load_nodes`: the two diagnostics lists and
the two mapping dicts (lines 21-24). -/
structure LoadResult where
  shortedErrors : List String
  fullErrorMessages : List String
  nodeClassMappings : List (String × String)
  nodeDisplayNameMappings : List (String × String)
deriving DecidableEq, Repr

/-- Python dict insertion with overwrite: an existing key keeps its
position and takes the new value, a new key is appended. -/
def dictInsert {α : Type} (d : List (String × α)) (k : String) (v : α) :
    List (String × α) :=
  if d.any (fun e => e.1 == k) then
    d.map (fun e => if e.1 == k then (k, v) else e)
  else d ++ [(k, v)]

/-- Python `dict.update`: insert every entry of `es` in order (last wins). -/
def dictUpdateAll {α : Type} (d : List (String × α)) (es : List (String × α)) :
    List (String × α) :=
  es.foldl (fun acc e => dictInsert acc e.1 e.2) d

/-- Python `str.splitlines` restricted to the newline character: split on
newlines, dropping the empty fragment a trailing newline would produce. -/
def splitlines (s : String) : List String :=
  let parts := s.splitOn "\n"
  if parts.getLast? = some "" then parts.dropLast else parts

/-- `error_message.splitlines()[-1]` (line 44); traceback text is never
empty, so the default branch of `getLastD` is never taken. -/
def lastLine (s : String) : String := (splitlines s).getLastD ""

/-- The body of the `for filename in (here / "node_wrappers").iterdir()`
loop (lines 26-47) acting on the accumulated state: hidden files are
skipped, a successful load merges both tables, an AttributeError is
silently skipped, and any other failure appends one full and one shortened
diagnostic. -/
def loadStep (acc : LoadResult) (c : Candidate) : LoadResult :=
  if startsWithDot c.name then acc
  else
    match c.outcome with
    | .loaded cm dm =>
        LoadResult.mk acc.shortedErrors acc.fullErrorMessages
          (dictUpdateAll acc.nodeClassMappings cm)
          (match dm with
           | some d => dictUpdateAll acc.nodeDisplayNameMappings d
           | none => acc.nodeDisplayNameMappings)
    | .attrError => acc
    | .loadError msg =>
        LoadResult.mk
          (acc.shortedErrors ++
            ["Failed to import module " ++ c.name ++ " because " ++ lastLine msg])
          (acc.fullErrorMessages ++ [msg])
          acc.nodeClassMappings acc.nodeDisplayNameMappings

/-- `load_nodes` (lines 20-59) over the candidate list.  The function is
total: it always processes every candidate and returns, modelling that a
broken unit never aborts discovery of the others.  The diagnostics
printing of lines 49-58 only formats the returned lists and is omitted. -/
def load_nodes (cands : List Candidate) : LoadResult :=
  cands.foldl loadStep (LoadResult.mk [] [] [] [])

/-- `true` exactly on the candidates handled by the generic
`except Exception` arm (line 41). -/
def isGenericFailure (c : Candidate) : Bool :=
  match c.outcome with
  | .loadError _ => true
  | _ => false

/-- The class-mapping table of a successfully loaded candidate. -/
def candSuccess (c : Candidate) : Option (List (String × String)) :=
  match c.outcome with
  | .loaded cm _ => some cm
  | _ => none

/-! ## Fan-out/fan-in composer
(`ExecuteAllControlNetPreprocessors.execute`, lines 147-183) -/

/-- An output port of a graph node: `node.out(port)`. -/
structure Out where
  node : Nat
  port : Nat
deriving DecidableEq, Repr

/-- A keyword argument passed to a graph node: a plain string, an external
value, or a link to another node output port. -/
inductive GArg where
  | str (s : String)
  | val (v : PVal)
  | link (o : Out)
deriving DecidableEq, Repr

/-- A node created through `graph.node(kind, **kwargs)`, with sequentially
assigned ids. -/
structure GraphNode where
  id : Nat
  kind : String
  args : List (String × GArg)
deriving DecidableEq, Repr

/-- The fan-out loop of lines 164-168: for each preprocessor option create
an "AIO_Preprocessor" node and a "ControlNetAuxSimpleAddText" node wired to
its first output, collecting the text-node outputs.  Returns the created
nodes, the collected outputs and the next fresh node id. -/
def fanOut (image resolution : PVal) :
    List String → Nat → List GraphNode × List Out × Nat
  | [], nid => ([], [], nid)
  | p :: rest, nid =>
    let a := GraphNode.mk nid "AIO_Preprocessor"
      [("preprocessor", GArg.str p), ("image", GArg.val image),
       ("resolution", GArg.val resolution)]
    let b := GraphNode.mk (nid + 1) "ControlNetAuxSimpleAddText"
      [("image", GArg.link (Out.mk nid 0)), ("text", GArg.str p)]
    let r := fanOut image resolution rest (nid + 2)
    (a :: b :: r.1, Out.mk (nid + 1) 0 :: r.2.1, r.2.2)

/-- One merge round: the `for i in range(0, len(curr_outputs), 2)` loop of
lines 172-177, pairing adjacent outputs into "ImageBatch" nodes and passing
an unpaired trailing output through. -/
def pairRound : List Out → Nat → List GraphNode × List Out × Nat
  | [], nid => ([], [], nid)
  | [x], nid => ([], [x], nid)
  | x :: y :: rest, nid =>
    let m := GraphNode.mk nid "ImageBatch"
      [("image1", GArg.link x), ("image2", GArg.link y)]
    let r := pairRound rest (nid + 1)
    (m :: r.1, Out.mk nid 0 :: r.2.1, r.2.2)

/-- The `while len(curr_outputs) > 1` loop of lines 170-178, with the round
count bounded by a fuel argument.  Each round on two or more outputs
strictly shrinks the sequence, so fuel equal to the initial length is
never exhausted.  Besides the created nodes and the final output sequence
it records the sequence length after each round. -/
def mergeLoopFuel : Nat → List Out → Nat → List GraphNode × List Out × List Nat
  | 0, outs, _ => ([], outs, [])
  | fuel + 1, outs, nid =>
    if outs.length ≤ 1 then ([], outs, [])
    else
      let pr := pairRound outs nid
      let rest := mergeLoopFuel fuel pr.2.1 pr.2.2
      (pr.1 ++ rest.1, rest.2.1, pr.2.1.length :: rest.2.2)

/-- The merge loop started with sufficient fuel. -/
def mergeLoop (outs : List Out) (nid : Nat) :
    List GraphNode × List Out × List Nat :=
  mergeLoopFuel outs.length outs nid

/-- The execution graph the composer hands back through `graph.finalize()`
plus its `"result"` port, with the recorded sequence lengths (the initial
label-output count followed by the length after each merge round). -/
structure ComposeResult where
  nodes : List GraphNode
  finalOuts : List Out
  lengths : List Nat
deriving DecidableEq, Repr

/-- The graph-building part of lines 162-183: fan out over the options,
then reduce pairwise to a single output. -/
def compose (options : List String) (image resolution : PVal) : ComposeResult :=
  let f := fanOut image resolution options 0
  let m := mergeLoop f.2.1 f.2.2
  ComposeResult.mk (f.1 ++ m.1) m.2.1 (f.2.1.length :: m.2.2)

/-- `ExecuteAllControlNetPreprocessors.execute` (lines 156-183):
`hasGraphBuilder` models whether `from comfy_execution.graph_utils import
GraphBuilder` succeeds; when it fails the RuntimeError of line 160 is
raised before any graph node is created. -/
def ExecuteAllControlNetPreprocessors_execute (hasGraphBuilder : Bool)
    (options : List String) (image resolution : PVal) :
    Except PyErr ComposeResult :=
  if hasGraphBuilder then .ok (compose options image resolution)
  else .error .capabilityMissing

/-- The number of label-overlay ("ControlNetAuxSimpleAddText") nodes of a
composed graph. -/
def countLabelNodes (c : ComposeResult) : Nat :=
  (c.nodes.filter (fun n => n.kind == "ControlNetAuxSimpleAddText")).length

/-! ## Concrete demonstration inputs used by the proofs -/

/-- A unit whose required schema has a structural "image" parameter and a
choice-list parameter with an option of the known-default table and no
declared default. -/
def unitChoiceInt : UnitDesc :=
  UnitDesc.mk
    [("image", .short (.tag "IMAGE")), ("mode", .short (.choices ["INT"]))]
    [] (fun _ => .tuple [])

/-- A unit whose required schema has a parameter with no supplied value, no
declared default and no type-based fallback. -/
def unitNoFallback : UnitDesc :=
  UnitDesc.mk
    [("image", .short (.tag "IMAGE")), ("x", .short (.tag "STRING"))]
    [] (fun _ => .tuple [])

/-- A unit whose entry point always returns the given value; its single
required parameter "image" is always bound by the adapter. -/
def constUnit (r : UnitRet) : UnitDesc :=
  UnitDesc.mk [("image", .short (.tag "IMAGE"))] [] (fun _ => r)

/-- A demonstration schema: structural "image", a "resolution" parameter
with declared default 512, and a further defaulted parameter. -/
def demoSchema : List (String × InputType) :=
  [("image", .short (.tag "IMAGE")),
   ("resolution", .long (.tag "INT") (some (.int 512))),
   ("alpha", .long (.tag "FLOAT") (some (.float 7)))]

/-- The argument set the adapter builds from `demoSchema` with supplied
image `PVal.image 42` and resolution `PVal.int 512`. -/
def demoArgs : List (String × PVal) :=
  [("image", .image 42), ("resolution", .int 512), ("alpha", .float 7)]

/-- A demonstration discovery run: one successful candidate, one
missing-attribute candidate, one generically failing candidate. -/
def demoCands : List Candidate :=
  [Candidate.mk "a" (.loaded [("A", "ClsA")] none),
   Candidate.mk "b" .attrError,
   Candidate.mk "c" (.loadError "Traceback\nValueError: boom\n")]

/-! ## Theorems -/

/-- Claim C10: for every image, resolution and registry contents, the
unified dispatch `AIO_Preprocessor.execute` with preprocessor "none"
returns the single-element tuple holding the input image unchanged, and
its result does not depend on the registry (no registry consultation, no
schema inspection, no unit invocation). -/
theorem c10_none_short_circuit (registry registry2 : List (String × UnitDesc))
    (I R : PVal) :
    AIO_Preprocessor_execute registry "none" I R = .ok (.tuple [I])
    ∧ AIO_Preprocessor_execute registry "none" I R
      = AIO_Preprocessor_execute registry2 "none" I R := by
  exact ⟨rfl, rfl⟩

/-- Claim C9: when the host lacks graph-expansion support the composer
fails with the capability-missing error (raised before any graph node is
built, since the guard precedes the `GraphBuilder()` construction); when
the capability is present it returns the composed graph and the
capability-missing error is never raised. -/
theorem c9_capability_gate (options : List String) (I R : PVal) :
    ExecuteAllControlNetPreprocessors_execute false options I R
      = .error .capabilityMissing
    ∧ ExecuteAllControlNetPreprocessors_execute true options I R
      = .ok (compose options I R)
    ∧ ∀ e : PyErr,
        ExecuteAllControlNetPreprocessors_execute true options I R ≠ .error e := by
  refine ⟨rfl, rfl, fun e h => ?_⟩
  simp [ExecuteAllControlNetPreprocessors_execute] at h

/-- Claim C2 evaluated on the code: for a parameter with no supplied value
and no declared default whose type is an enumerated choice list with an
option of the known-default table, the claim says `build_arguments` binds
the mapped value and does not raise; the code instead raises a TypeError,
because line 120 indexes the known-default table with the whole option
list (`default_values[input_type[0]]`), which is unhashable.  The
selector variant (line 259) raises on the same input for the same reason. -/
theorem c2_choice_fallback_raises :
    aio_build_arguments (.image 0) (.int 512)
      [("mode", .short (.choices ["FLOAT", "custom"]))] = .error .typeError
    ∧ sel_build_arguments (.image 0) (.int 512)
      [("mode", .short (.choices ["FLOAT", "custom"]))] = .error .typeError := by
  exact ⟨rfl, rfl⟩

/-- Claim C4 evaluated on the code: `unitChoiceInt` is a schema whose
every required parameter has a supplied value or a type-based fallback, so
per the claim the invocation must not fail, yet the adapter raises a
TypeError (the line 120 slip).  For comparison, a required parameter with
none of the three sources does surface as the missing-parameter failure
the claim describes. -/
theorem c4_failure_condition_divergence :
    AIO_Preprocessor_execute [("u4", unitChoiceInt)] "u4" (.image 0) (.int 512)
      = .error .typeError
    ∧ AIO_Preprocessor_execute [("u4b", unitNoFallback)] "u4b" (.image 0) (.int 512)
      = .error .missingParameter := by
  exact ⟨rfl, rfl⟩

/-- Claim C6 counterexample: the claim says both adapter entry points
detect a structured record result and normalize it before returning, but
`AIO_Preprocessor.execute` (line 125) returns the unit result verbatim: on
a unit returning a record it yields the record itself, not the normalized
plain result tuple. -/
theorem c6_counterexample :
    AIO_Preprocessor_execute [("u6", constUnit (.record [.image 99] true))] "u6"
      (.image 1) (.int 512) = .ok (.record [.image 99] true)
    ∧ UnitRet.record [.image 99] true ≠ UnitRet.tuple [.image 99] := by
  exact ⟨rfl, by decide⟩

/-- Claim C6 amended: only the selector entry point performs shape
detection, normalizing a structured record to (model :: result tuple) and
a plain tuple to (model :: tuple); the AIO entry point returns whatever
the unit entry point returned, unchanged, for either shape. -/
theorem c6_amended_shape_handling :
    (∀ (m : PVal) (res : List PVal) (e : Bool),
        sel_normalize m (.record res e) = .tuple (m :: res))
    ∧ (∀ (m : PVal) (vs : List PVal),
        sel_normalize m (.tuple vs) = .tuple (m :: vs))
    ∧ (∀ (r : UnitRet) (I R : PVal),
        AIO_Preprocessor_execute [("u0", constUnit r)] "u0" I R = .ok r) := by
  exact ⟨fun m res e => rfl, fun m vs => rfl, fun r I R => rfl⟩

/-- Claim C8 counterexample: over a registry of 0 units the composer
neither fails nor returns an empty or identity result: because of the
prepended "none" sentinel it returns a non-empty graph of two nodes that
routes the input through the "none" passthrough and overlays a text
label on it. -/
theorem c8_counterexample :
    ExecuteAllControlNetPreprocessors_execute true
      (preprocessor_options [] AIO_NOT_SUPPORTED) (.image 0) (.int 512)
      = .ok (compose ["none"] (.image 0) (.int 512))
    ∧ (compose ["none"] (PVal.image 0) (PVal.int 512)).nodes ≠ []
    ∧ (compose ["none"] (PVal.image 0) (PVal.int 512)).nodes.map (fun n => n.kind)
      = ["AIO_Preprocessor", "ControlNetAuxSimpleAddText"] := by
  exact ⟨rfl, by decide, rfl⟩

/-- Claim C8 amended: over a registry of 0 units the composer succeeds
(given the capability) and returns the graph with exactly two nodes: the
"none" passthrough invocation of the input and its label overlay, whose
single output is the final result, with no merge round. -/
theorem c8_amended_empty_registry (I R : PVal) :
    ExecuteAllControlNetPreprocessors_execute true
      (preprocessor_options [] AIO_NOT_SUPPORTED) I R
    = .ok (ComposeResult.mk
        [GraphNode.mk 0 "AIO_Preprocessor"
          [("preprocessor", GArg.str "none"), ("image", GArg.val I),
           ("resolution", GArg.val R)],
         GraphNode.mk 1 "ControlNetAuxSimpleAddText"
          [("image", GArg.link (Out.mk 0 0)), ("text", GArg.str "none")]]
        [Out.mk 1 0] [1]) := by
  rfl

/-- Claim C3 counterexample: over a registry of exactly 5 units, none of
them excluded, the composed graph contains 6 label-overlay nodes, not the
claimed 5, because the iterated option list carries the prepended "none"
sentinel. -/
theorem c3_counterexample :
    countLabelNodes (compose
      (preprocessor_options ["u1", "u2", "u3", "u4", "u5"] AIO_NOT_SUPPORTED)
      (.image 0) (.int 512)) = 6
    ∧ countLabelNodes (compose
      (preprocessor_options ["u1", "u2", "u3", "u4", "u5"] AIO_NOT_SUPPORTED)
      (.image 0) (.int 512)) ≠ 5 := by
  exact ⟨rfl, by decide⟩

/-- Claim C7 counterexample: for registry contents {"A"} and exclusion set
{"none"} the view returns ["A"]: the removal loop strips the sentinel
itself, so "none" is not the first element as the claim requires for
every registry and every exclusion set. -/
theorem c7_counterexample :
    preprocessor_options ["A"] ["none"] = ["A"]
    ∧ (preprocessor_options ["A"] ["none"]).head? ≠ some "none" := by
  exact ⟨rfl, by decide⟩

/-- Lookup into a freshly consed argument entry. -/
theorem alistLookup_cons {α : Type} (k m : String) (v : α) (ps : List (String × α)) :
    alistLookup k ((m, v) :: ps) = if m == k then some v else alistLookup k ps := by
  by_cases hmk : m = k
  · subst hmk; simp [alistLookup]
  · have hb : (m == k) = false := by simp [hmk]
    simp [alistLookup, List.find?_cons, hb]

/-- The loop binds the "image" parameter to the supplied image whatever
its descriptor says. -/
theorem aio_fill_param_image (I R : PVal) (t : InputType) :
    aio_fill_param I R "image" t = .ok (some I) := rfl

/-- The loop binds the "resolution" parameter to the supplied resolution
whatever its descriptor says. -/
theorem aio_fill_param_resolution (I R : PVal) (t : InputType) :
    aio_fill_param I R "resolution" t = .ok (some R) := rfl

/-- A non-structural parameter with a declared default is bound to that
default. -/
theorem aio_fill_param_default (I R : PVal) (n : String) (h : TypeHead) (d : PVal)
    (h1 : n ≠ "image") (h2 : n ≠ "resolution") :
    aio_fill_param I R n (.long h (some d)) = .ok (some d) := by
  simp [aio_fill_param, h1, h2]

/-- Inversion of the parameter loop on a cons cell: a successful build of
the whole schema decomposes into a successful binding decision for the
head parameter and a successful build of the tail. -/
theorem aio_build_arguments_cons_inv (I R : PVal) (m : String) (t : InputType)
    (rest : List (String × InputType)) (ps : List (String × PVal))
    (hok : aio_build_arguments I R ((m, t) :: rest) = .ok ps) :
    ∃ (v? : Option PVal) (ps' : List (String × PVal)),
      aio_fill_param I R m t = .ok v?
      ∧ aio_build_arguments I R rest = .ok ps'
      ∧ ps = (match v? with
              | some v => (m, v) :: ps'
              | none => ps') := by
  simp only [aio_build_arguments] at hok
  cases hfp : aio_fill_param I R m t with
  | error e' => rw [hfp] at hok; cases hok
  | ok v? =>
    rw [hfp] at hok
    cases hb : aio_build_arguments I R rest with
    | error e' => rw [hb] at hok; cases hok
    | ok ps' =>
      rw [hb] at hok
      cases hok
      exact ⟨v?, ps', rfl, rfl, rfl⟩

/-- Claim C1: for every unit schema, the built argument set binds "image"
and "resolution" to the caller-supplied values whenever the schema
declares them, regardless of the descriptors (in particular of any
declared default), and binds every other parameter carrying a declared
default to that default. -/
theorem c1_structural_roles (I R : PVal) (schema : List (String × InputType))
    (ps : List (String × PVal))
    (hnd : (schema.map Prod.fst).Nodup)
    (hok : aio_build_arguments I R schema = .ok ps) :
    ("image" ∈ schema.map Prod.fst → alistLookup "image" ps = some I)
    ∧ ("resolution" ∈ schema.map Prod.fst → alistLookup "resolution" ps = some R)
    ∧ (∀ (n : String) (h : TypeHead) (d : PVal), n ≠ "image" → n ≠ "resolution" →
        (n, InputType.long h (some d)) ∈ schema → alistLookup n ps = some d) := by
  induction schema generalizing ps with
  | nil =>
    cases hok
    refine ⟨by simp, by simp, ?_⟩
    intro n h d _ _ hmem
    simp at hmem
  | cons e rest ih =>
    obtain ⟨m, t⟩ := e
    simp only [List.map_cons, List.nodup_cons] at hnd
    obtain ⟨hm, hndr⟩ := hnd
    obtain ⟨v?, ps', hfp, hb, hps⟩ :=
      aio_build_arguments_cons_inv I R m t rest ps hok
    subst hps
    obtain ⟨ih1, ih2, ih3⟩ := ih ps' hndr hb
    refine ⟨?_, ?_, ?_⟩
    · intro hmem
      rcases List.mem_cons.mp hmem with hhead | htail
      · subst hhead
        have hv : (Except.ok (some I) : Except PyErr (Option PVal)) = .ok v? := by
          rw [← aio_fill_param_image I R t, hfp]
        cases hv
        rw [alistLookup_cons]
        simp
      · have hne : m ≠ "image" := fun hc => hm (hc ▸ htail)
        cases v? with
        | some v =>
          rw [alistLookup_cons, if_neg (by simp [hne])]
          exact ih1 htail
        | none =>
          exact ih1 htail
    · intro hmem
      rcases List.mem_cons.mp hmem with hhead | htail
      · subst hhead
        have hv : (Except.ok (some R) : Except PyErr (Option PVal)) = .ok v? := by
          rw [← aio_fill_param_resolution I R t, hfp]
        cases hv
        rw [alistLookup_cons]
        simp
      · have hne : m ≠ "resolution" := fun hc => hm (hc ▸ htail)
        cases v? with
        | some v =>
          rw [alistLookup_cons, if_neg (by simp [hne])]
          exact ih2 htail
        | none =>
          exact ih2 htail
    · intro n h d hn1 hn2 hmem
      rcases List.mem_cons.mp hmem with hhead | htail
      · obtain ⟨hmn, hts⟩ := Prod.mk.injEq .. ▸ hhead
        subst hmn
        subst hts
        have hv : (Except.ok (some d) : Except PyErr (Option PVal)) = .ok v? := by
          rw [← aio_fill_param_default I R n h d hn1 hn2, hfp]
        cases hv
        rw [alistLookup_cons]
        simp
      · have hnr : n ∈ rest.map Prod.fst :=
          List.mem_map.mpr ⟨(n, InputType.long h (some d)), htail, rfl⟩
        have hne : m ≠ n := fun hc => hm (hc ▸ hnr)
        cases v? with
        | some v =>
          rw [alistLookup_cons, if_neg (by simp [hne])]
          exact ih3 n h d hn1 hn2 htail
        | none =>
          exact ih3 n h d hn1 hn2 htail

/-- Witness for C1: on `demoSchema` with supplied image 42 and resolution
512 the built arguments bind image and resolution to the supplied values
and the remaining defaulted parameter to its declared default. -/
theorem c1_witness :
    alistLookup "image" demoArgs = some (.image 42)
    ∧ alistLookup "resolution" demoArgs = some (.int 512)
    ∧ alistLookup "alpha" demoArgs = some (.float 7) := by
  have h := c1_structural_roles (.image 42) (.int 512) demoSchema demoArgs
    (by decide) (by rfl)
  exact ⟨h.1 (by decide), h.2.1 (by decide),
    h.2.2 "alpha" (.tag "FLOAT") (.float 7) (by decide) (by decide) (by decide)⟩

/-- Behaviour of the discovery loop from an arbitrary accumulated state:
each generically failing candidate contributes exactly one shortened and
one full diagnostic, missing-attribute candidates contribute nothing, and
the class registry is the last-wins merge of exactly the successful
candidates' tables. -/
theorem load_foldl_spec (cands : List Candidate) (acc : LoadResult)
    (h : ∀ c ∈ cands, startsWithDot c.name = false) :
    ((cands.foldl loadStep acc).shortedErrors.length
        = acc.shortedErrors.length + (cands.filter isGenericFailure).length)
    ∧ ((cands.foldl loadStep acc).fullErrorMessages.length
        = acc.fullErrorMessages.length + (cands.filter isGenericFailure).length)
    ∧ ((cands.foldl loadStep acc).nodeClassMappings
        = (cands.filterMap candSuccess).foldl dictUpdateAll acc.nodeClassMappings) := by
  induction cands generalizing acc with
  | nil => simp
  | cons c rest ih =>
    have hc : startsWithDot c.name = false := h c (List.mem_cons_self c rest)
    have hrest : ∀ x ∈ rest, startsWithDot x.name = false :=
      fun x hx => h x (List.mem_cons_of_mem c hx)
    rw [List.foldl_cons]
    obtain ⟨ih1, ih2, ih3⟩ := ih (loadStep acc c) hrest
    cases hoc : c.outcome with
    | loaded cm dm =>
      have hsh : (loadStep acc c).shortedErrors = acc.shortedErrors := by
        simp [loadStep, hc, hoc]
      have hfe : (loadStep acc c).fullErrorMessages = acc.fullErrorMessages := by
        simp [loadStep, hc, hoc]
      have hcm : (loadStep acc c).nodeClassMappings
          = dictUpdateAll acc.nodeClassMappings cm := by
        simp [loadStep, hc, hoc]
      refine ⟨?_, ?_, ?_⟩
      · rw [ih1, hsh]; simp [isGenericFailure, hoc]
      · rw [ih2, hfe]; simp [isGenericFailure, hoc]
      · rw [ih3, hcm]; simp [candSuccess, hoc, List.filterMap_cons]
    | attrError =>
      have hsh : (loadStep acc c).shortedErrors = acc.shortedErrors := by
        simp [loadStep, hc, hoc]
      have hfe : (loadStep acc c).fullErrorMessages = acc.fullErrorMessages := by
        simp [loadStep, hc, hoc]
      have hcm : (loadStep acc c).nodeClassMappings = acc.nodeClassMappings := by
        simp [loadStep, hc, hoc]
      refine ⟨?_, ?_, ?_⟩
      · rw [ih1, hsh]; simp [isGenericFailure, hoc]
      · rw [ih2, hfe]; simp [isGenericFailure, hoc]
      · rw [ih3, hcm]; simp [candSuccess, hoc, List.filterMap_cons]
    | loadError msg =>
      have hsh : (loadStep acc c).shortedErrors = acc.shortedErrors ++
          ["Failed to import module " ++ c.name ++ " because " ++ lastLine msg] := by
        simp [loadStep, hc, hoc]
      have hfe : (loadStep acc c).fullErrorMessages
          = acc.fullErrorMessages ++ [msg] := by
        simp [loadStep, hc, hoc]
      have hcm : (loadStep acc c).nodeClassMappings = acc.nodeClassMappings := by
        simp [loadStep, hc, hoc]
      refine ⟨?_, ?_, ?_⟩
      · rw [ih1, hsh]; simp [isGenericFailure, hoc]; omega
      · rw [ih2, hfe]; simp [isGenericFailure, hoc]; omega
      · rw [ih3, hcm]; simp [candSuccess, hoc, List.filterMap_cons]

/-- Claim C5: a discovery run over candidates with no hidden names (so
every candidate is attempted) completes as a total function over all
candidates, yields a class registry merging exactly the tables of the
successful candidates (so the missing-attribute and generic failures
contribute no units), leaves no diagnostic for missing-attribute
failures, and produces shortened and full diagnostics lists whose length
is exactly the number of generic failures. -/
theorem c5_discovery_diagnostics (cands : List Candidate)
    (h : ∀ c ∈ cands, startsWithDot c.name = false) :
    ((load_nodes cands).shortedErrors.length
        = (cands.filter isGenericFailure).length)
    ∧ ((load_nodes cands).fullErrorMessages.length
        = (cands.filter isGenericFailure).length)
    ∧ ((load_nodes cands).nodeClassMappings
        = (cands.filterMap candSuccess).foldl dictUpdateAll []) := by
  have hspec := load_foldl_spec cands (LoadResult.mk [] [] [] []) h
  simpa [load_nodes] using hspec

/-- Witness for C5: a three-candidate run with one success, one
missing-attribute failure and one generic failure. -/
theorem c5_witness :
    ((load_nodes demoCands).shortedErrors.length
        = (demoCands.filter isGenericFailure).length)
    ∧ ((load_nodes demoCands).fullErrorMessages.length
        = (demoCands.filter isGenericFailure).length)
    ∧ ((load_nodes demoCands).nodeClassMappings
        = (demoCands.filterMap candSuccess).foldl dictUpdateAll []) :=
  c5_discovery_diagnostics demoCands (by decide)

/-- `List.contains` agrees with membership (strings). -/
theorem string_contains_iff (a : String) (l : List String) :
    l.contains a = true ↔ a ∈ l :=
  List.elem_iff

/-- On a duplicate-free list, removing the first occurrence is filtering. -/
theorem listRemove_eq_filter (l : List String) (a : String) (hl : l.Nodup) :
    listRemove l a = l.filter (fun x => !(x == a)) := by
  induction l with
  | nil => rfl
  | cons b t ih =>
    obtain ⟨hb, ht⟩ := List.nodup_cons.mp hl
    by_cases hba : b = a
    · subst hba
      have hfix : t.filter (fun x => !(x == b)) = t := by
        apply List.filter_eq_self.mpr
        intro x hx
        simp only [Bool.not_eq_eq_eq_not, Bool.not_true, beq_eq_false_iff_ne]
        exact fun hxb => hb (hxb ▸ hx)
      simp [listRemove, hfix]
    · simp [listRemove, hba, ih ht]

/-- On a duplicate-free list, one iteration of the removal loop of
`preprocessor_options` is filtering. -/
theorem removeStep_eq_filter (acc : List String) (a : String) (hacc : acc.Nodup) :
    (if acc.contains a then listRemove acc a else acc)
      = acc.filter (fun x => !(x == a)) := by
  by_cases hc : a ∈ acc
  · rw [if_pos ((string_contains_iff a acc).mpr hc)]
    exact listRemove_eq_filter acc a hacc
  · rw [if_neg (fun hmem => hc ((string_contains_iff a acc).mp hmem))]
    symm
    apply List.filter_eq_self.mpr
    intro x hx
    simp only [Bool.not_eq_eq_eq_not, Bool.not_true, beq_eq_false_iff_ne]
    exact fun hxa => hc (hxa ▸ hx)

/-- On a duplicate-free list, the whole removal loop of
`preprocessor_options` filters out the excluded names. -/
theorem fold_remove_eq_filter (excl : List String) (acc : List String)
    (hacc : acc.Nodup) :
    excl.foldl (fun l name => if l.contains name then listRemove l name else l) acc
      = acc.filter (fun x => !(excl.contains x)) := by
  induction excl generalizing acc with
  | nil =>
    simp
  | cons e rest ih =>
    rw [List.foldl_cons, removeStep_eq_filter acc e hacc,
      ih (acc.filter (fun x => !(x == e))) (hacc.filter _), List.filter_filter]
    apply List.filter_congr
    intro x _
    cases hxe : x == e <;> cases hxr : rest.contains x <;>
      rw [List.contains_cons, hxe, hxr] <;> rfl

/-- Claim C7 amended: for every duplicate-free registry and every
exclusion set not containing the sentinel "none" (the code strips the
sentinel itself if the exclusion set names it), the view returns exactly
the registered names minus the exclusion set with "none" prepended as the
first element; the view is a pure function of the registry and exclusion
list, so repeated calls return the same list. -/
theorem c7_amended_available_names (names excl : List String)
    (h1 : names.Nodup) (h2 : "none" ∉ names) (h3 : "none" ∉ excl) :
    preprocessor_options names excl
      = "none" :: names.filter (fun n => !(excl.contains n)) := by
  unfold preprocessor_options
  have hnd : ("none" :: names).Nodup := List.nodup_cons.mpr ⟨h2, h1⟩
  rw [fold_remove_eq_filter excl _ hnd]
  rw [List.filter_cons_of_pos]
  simp only [Bool.not_eq_eq_eq_not, Bool.not_true]
  cases hne : excl.contains "none" with
  | false => rfl
  | true => exact absurd ((string_contains_iff "none" excl).mp hne) h3

/-- Witness for C7: registry {"A", "B"} with exclusion {"B"}. -/
theorem c7_witness :
    preprocessor_options ["A", "B"] ["B"]
      = "none" :: (["A", "B"].filter (fun n => !(["B"].contains n))) :=
  c7_amended_available_names ["A", "B"] ["B"] (by decide) (by decide) (by decide)

/-- The removal loop of `preprocessor_options` leaves a list untouched
when no excluded name occurs in it. -/
theorem fold_remove_of_disjoint (excl : List String) (acc : List String)
    (h : ∀ e ∈ excl, acc.contains e = false) :
    excl.foldl (fun l name => if l.contains name then listRemove l name else l) acc
      = acc := by
  induction excl with
  | nil => rfl
  | cons e rest ih =>
    rw [List.foldl_cons,
      if_neg (by rw [h e (List.mem_cons_self e rest)]; exact Bool.false_ne_true)]
    exact ih (fun x hx => h x (List.mem_cons_of_mem e hx))

/-- With no registered name excluded, the option list is the sentinel
"none" followed by the registered names. -/
theorem preprocessor_options_disjoint (names : List String)
    (hx : ∀ e ∈ AIO_NOT_SUPPORTED, names.contains e = false) :
    preprocessor_options names AIO_NOT_SUPPORTED = "none" :: names := by
  unfold preprocessor_options
  apply fold_remove_of_disjoint
  intro e he
  have hnone : ∀ x ∈ AIO_NOT_SUPPORTED, (x == "none") = false := by decide
  rw [List.contains_cons, hnone e he, hx e he]
  rfl

/-- Claim C3 amended: over a registry of exactly 5 units, none excluded,
the composed graph contains exactly 6 label-overlay nodes (one per
iterated option, the prepended "none" sentinel included), the pairwise
reduction runs 3 merge rounds with sequence lengths 6, then 3, then 2,
then 1, and exactly one final output node remains. -/
theorem c3_amended_five_units (names : List String) (I R : PVal)
    (h5 : names.length = 5)
    (hx : ∀ e ∈ AIO_NOT_SUPPORTED, names.contains e = false) :
    countLabelNodes
      (compose (preprocessor_options names AIO_NOT_SUPPORTED) I R) = 6
    ∧ (compose (preprocessor_options names AIO_NOT_SUPPORTED) I R).lengths
      = [6, 3, 2, 1]
    ∧ (compose (preprocessor_options names AIO_NOT_SUPPORTED) I R).finalOuts.length
      = 1 := by
  rw [preprocessor_options_disjoint names hx]
  obtain ⟨a, b, c, d, e, hsh⟩ : ∃ a b c d e, names = [a, b, c, d, e] := by
    match names, h5 with
    | [a, b, c, d, e], _ => exact ⟨a, b, c, d, e, rfl⟩
  subst hsh
  exact ⟨rfl, rfl, rfl⟩

/-- Witness for C3 amended: five concretely named units. -/
theorem c3_witness :
    countLabelNodes
      (compose (preprocessor_options ["v1", "v2", "v3", "v4", "v5"]
        AIO_NOT_SUPPORTED) (.image 7) (.int 256)) = 6
    ∧ (compose (preprocessor_options ["v1", "v2", "v3", "v4", "v5"]
        AIO_NOT_SUPPORTED) (.image 7) (.int 256)).lengths = [6, 3, 2, 1]
    ∧ (compose (preprocessor_options ["v1", "v2", "v3", "v4", "v5"]
        AIO_NOT_SUPPORTED) (.image 7) (.int 256)).finalOuts.length = 1 :=
  c3_amended_five_units ["v1", "v2", "v3", "v4", "v5"] (.image 7) (.int 256)
    (by rfl) (by decide)

end CNAux
